import Mathlib

/-
Shallow embedding of 0xatb/GUI-Calculator (src/main.py).

The evaluator safe_eval replaces each caret with the power token, parses an
arithmetic expression the way Python's ast.parse(mode="eval") does on the
calculator's input grammar, and walks the tree under an operator whitelist.

Modelling decisions:
  * Python ints are Lean Int; Python floats are exact rationals (every value
    appearing in the claims is a dyadic rational, represented exactly).
  * Raised exceptions are Except values.  The spec's five failure kinds are
    the five constructors of EvalError:
      SyntaxRejected      -> EvalError.parseRejected
      UnsupportedLiteral  -> EvalError.unsupportedLiteral
      UnsupportedOperator -> EvalError.unsupportedOperator
      DisallowedConstruct -> EvalError.disallowedConstruct
      ArithmeticFailure   -> EvalError.arithmeticFailure
    In the code the first four are ValueError raises inside safe_eval and the
    fifth is the ZeroDivisionError/OverflowError that op.truediv, op.mod and
    op.pow raise and safe_eval lets propagate.
  * The tree walk _eval branches on the node kind exactly as the isinstance
    chain at src/main.py lines 36-59 does, including the deprecated ast.Num
    alias at line 51 that matches int, float and complex Constant payloads
    (and excludes bool); the ast.Expression wrapper that line 36 unwraps is
    represented by the parsing functions returning the body directly.
  * The parsing functions model the fragment of Python's expression grammar
    reachable from the calculator: numeric literals (with Python's rejection
    of leading zeros in integer literals), imaginary literals with the j or
    J suffix, identifiers and the keyword constants True/False/None, string
    literals (without escape sequences), the operators + - * / // % **,
    unary + and -, parentheses, tuples, commas, attribute access and calls.
    Exponent suffixes, underscores in numbers and the remaining Python
    operators are outside the modelled fragment; none occur in the claims'
    inputs.  Recursion fuel models CPython's bounded parser stack; running
    out surfaces as the syntax failure.
-/

/-- The five typed failure kinds of the spec (section 4.1 of spec.md);
parseRejected is the spec's SyntaxRejected. -/
inductive EvalError where
  | parseRejected
  | unsupportedLiteral
  | unsupportedOperator
  | disallowedConstruct
  | arithmeticFailure

deriving instance DecidableEq for EvalError

/-- A Python numeric value: an int, a float, or a complex number, the float
and the complex components represented as exact rationals.  Complex values
arise from the literal branch at src/main.py lines 51-52, whose deprecated
ast.Num alias accepts a complex Constant payload and returns it. -/
inductive Value where
  | int (n : ℤ)
  | float (q : ℚ)
  | complex (re im : ℚ)

deriving instance DecidableEq for Value

/-- The comparison key of a value: the rational that an int or a float
denotes, and for a complex value the squared modulus.  Across all three
kinds, toQ v = 0 holds exactly when Python's comparison v == 0 does, which
is what the zero tests of the operator functions below translate; the
real-field arithmetic uses of toQ only ever receive int and float values,
because every operator function branches on complex operands first and
handles them through the re and im components. -/
def Value.toQ : Value → ℚ
  | .int n => (n : ℚ)
  | .float q => q
  | .complex re im => re ^ 2 + im ^ 2

/-- Whether the value is float-typed (a complex is not a float, so it
passes the line-63 isinstance check unconverted). -/
def Value.isFloat : Value → Bool
  | .int _ => false
  | .float _ => true
  | .complex _ _ => false

/-- Whether the value is complex-typed. -/
def Value.isComplex : Value → Bool
  | .int _ => false
  | .float _ => false
  | .complex _ _ => true

/-- Real component of a value under Python's numeric tower (an int or a
float is a complex with imaginary part zero). -/
def Value.re : Value → ℚ
  | .int n => (n : ℚ)
  | .float q => q
  | .complex re _ => re

/-- Imaginary component of a value under Python's numeric tower. -/
def Value.im : Value → ℚ
  | .int _ => 0
  | .float _ => 0
  | .complex _ im => im

/-- Python's result typing for arithmetic: an operation involving a float
yields a float, one on ints yields an int (the rational is then integral and
q.num is that integer). -/
def mkNum (isF : Bool) (q : ℚ) : Value :=
  if isF then .float q else .int q.num

/-- Integer power on rationals, q ^ e with e : Int (negative exponents via
the inverse; callers rule out a zero base with a negative exponent). -/
def qzpow (q : ℚ) (e : ℤ) : ℚ :=
  if 0 ≤ e then q ^ e.toNat else (q ^ (-e).toNat)⁻¹

/-- op.add from the whitelist table (src/main.py line 12): complex
arithmetic when either operand is complex, real arithmetic otherwise. -/
def addV (a b : Value) : Except EvalError Value :=
  if a.isComplex || b.isComplex then .ok (.complex (a.re + b.re) (a.im + b.im))
  else .ok (mkNum (a.isFloat || b.isFloat) (a.toQ + b.toQ))

/-- op.sub (line 13). -/
def subV (a b : Value) : Except EvalError Value :=
  if a.isComplex || b.isComplex then .ok (.complex (a.re - b.re) (a.im - b.im))
  else .ok (mkNum (a.isFloat || b.isFloat) (a.toQ - b.toQ))

/-- op.mul (line 14). -/
def mulV (a b : Value) : Except EvalError Value :=
  if a.isComplex || b.isComplex then
    .ok (.complex (a.re * b.re - a.im * b.im) (a.re * b.im + a.im * b.re))
  else .ok (mkNum (a.isFloat || b.isFloat) (a.toQ * b.toQ))

/-- op.truediv (line 15): ZeroDivisionError on a divisor equal to zero
(toQ b = 0 is exactly that comparison) is the arithmeticFailure that
safe_eval lets propagate; otherwise complex division when either operand is
complex, and a float result otherwise. -/
def divV (a b : Value) : Except EvalError Value :=
  if b.toQ = 0 then .error .arithmeticFailure
  else if a.isComplex || b.isComplex then
    let d := b.re ^ 2 + b.im ^ 2
    .ok (.complex ((a.re * b.re + a.im * b.im) / d) ((a.im * b.re - a.re * b.im) / d))
  else .ok (.float (a.toQ / b.toQ))

/-- op.mod (line 16): Python's floor-convention remainder
a - b * floor(a / b); ZeroDivisionError on a zero divisor.  A complex
operand on either side raises TypeError (complex numbers have no modulo),
which safe_eval does not catch any more than the ZeroDivisionError; both
propagate to the caller as numeric-domain failures, which the taxonomy of
the spec routes to ArithmeticFailure. -/
def modV (a b : Value) : Except EvalError Value :=
  if a.isComplex || b.isComplex then .error .arithmeticFailure
  else if b.toQ = 0 then .error .arithmeticFailure
  else .ok (mkNum (a.isFloat || b.isFloat) (a.toQ - b.toQ * (Rat.floor (a.toQ / b.toQ) : ℚ)))

/-- Complex integer power by repeated multiplication on exact rational
components (re, im), the analogue of qzpow. -/
def czpowAux : ℕ → ℚ × ℚ → ℚ × ℚ
  | 0, _ => (1, 0)
  | n + 1, c =>
    let p := czpowAux n c
    (p.1 * c.1 - p.2 * c.2, p.1 * c.2 + p.2 * c.1)

/-- Complex power with an integer exponent; a negative exponent inverts the
positive power (callers rule out a zero base). -/
def czpow (re im : ℚ) (e : ℤ) : ℚ × ℚ :=
  if 0 ≤ e then czpowAux e.toNat (re, im)
  else
    let p := czpowAux (-e).toNat (re, im)
    let d := p.1 ^ 2 + p.2 ^ 2
    (p.1 / d, -p.2 / d)

/-- op.pow (line 17).  int ** nonnegative int is an int; a negative integer
exponent gives a float (ZeroDivisionError on base zero); a complex operand
with an integer-valued exponent gives the complex power, computed by
repeated multiplication as CPython itself does for small exponents.  An
exponent that is not integer-valued produces an IEEE float (or, for a
negative or complex base, a complex) that generally lies outside the exact
rational domain of this embedding; that case is mapped to the
numeric-domain failure, the conservative boundary of the model.  No claim
evaluates a fractional or complex exponent. -/
def powV (a b : Value) : Except EvalError Value :=
  match b with
  | .int e =>
    if a.isComplex then
      if e < 0 ∧ a.toQ = 0 then .error .arithmeticFailure
      else
        let p := czpow a.re a.im e
        .ok (.complex p.1 p.2)
    else if 0 ≤ e then .ok (mkNum a.isFloat (qzpow a.toQ e))
    else if a.toQ = 0 then .error .arithmeticFailure
    else .ok (.float (qzpow a.toQ e))
  | .float qe =>
    if qe.den = 1 then
      if a.toQ = 0 ∧ qe.num < 0 then .error .arithmeticFailure
      else if a.isComplex then
        let p := czpow a.re a.im qe.num
        .ok (.complex p.1 p.2)
      else .ok (.float (qzpow a.toQ qe.num))
    else .error .arithmeticFailure
  | .complex bre bim =>
    if bim = 0 ∧ bre.den = 1 then
      if a.toQ = 0 ∧ bre.num < 0 then .error .arithmeticFailure
      else
        let p := czpow a.re a.im bre.num
        .ok (.complex p.1 p.2)
    else .error .arithmeticFailure

/-- op.neg (line 18). -/
def negV : Value → Value
  | .int n => .int (-n)
  | .float q => .float (-q)
  | .complex re im => .complex (-re) (-im)

/-- op.pos (line 19): identity on numbers. -/
def posV : Value → Value := fun v => v

/-- Binary operator node kinds of the Python ast that the modelled grammar
can produce.  floorDiv (Python //) is producible from the calculator's
character set but absent from the whitelist. -/
inductive BinK where
  | add
  | sub
  | mult
  | div
  | mod
  | pow
  | floorDiv

deriving instance DecidableEq for BinK

/-- Unary operator node kinds; invert (Python ~) is outside the whitelist. -/
inductive UnK where
  | uadd
  | usub
  | invert

deriving instance DecidableEq for UnK

/-- The payload of an ast.Constant node.  A bool is a subclass of int in
Python, which matters for the isinstance check at line 54; a complex
payload is what ast.parse produces for an imaginary literal such as 1j
(value complex(0, 1)), and it matters for the ast.Num check at line 51. -/
inductive Const where
  | intC (n : ℤ)
  | floatC (q : ℚ)
  | complexC (re im : ℚ)
  | boolC (b : Bool)
  | strC (s : String)
  | noneC

deriving instance DecidableEq for Const

/-- The Python ast nodes reachable in mode="eval" from the modelled grammar:
the three whitelisted shapes plus the rejected kinds (calls, names,
attribute access, tuples). -/
inductive Ast where
  | constant (c : Const)
  | binOp (k : BinK) (l r : Ast)
  | unaryOp (k : UnK) (a : Ast)
  | call (f : Ast) (args : List Ast)
  | name (id : String)
  | attr (o : Ast) (field : String)
  | tuple (elts : List Ast)

/-- The binary half of _ALLOWED_OPERATORS (src/main.py lines 11-17): a fixed
map from operator node kind to numeric function, none for kinds absent from
the dict. -/
def _ALLOWED_OPERATORS_bin : BinK → Option (Value → Value → Except EvalError Value)
  | .add => some addV
  | .sub => some subV
  | .mult => some mulV
  | .div => some divV
  | .mod => some modV
  | .pow => some powV
  | .floorDiv => none

/-- The unary half of _ALLOWED_OPERATORS (lines 18-19). -/
def _ALLOWED_OPERATORS_un : UnK → Option (Value → Value)
  | .usub => some negV
  | .uadd => some posV
  | .invert => none

/-- The recursive tree walk _eval (src/main.py lines 35-59); named evalNode
here because the source name collides with a reserved Lean name.  BinOp and
UnaryOp evaluate their children before the whitelist lookup, exactly as
lines 39-50 do.  A Constant node is tested against ast.Num first (line 51):
on every Python running this code the deprecated alias matches a Constant
whose payload is an int, a float or a complex — but not a bool, which the
alias explicitly excludes — and node.n aliases node.value, so those three
payload kinds are returned there, the complex ones included.  A bool
payload falls through to the isinstance(node.value, (int, float)) check at
line 54 and passes it because bool subclasses int; str and None payloads
fail it and raise the UnsupportedLiteral error of line 56.  Call hits line
58 and every remaining node kind hits line 59, both of which are the spec's
DisallowedConstruct. -/
def evalNode : Ast → Except EvalError Value
  | .binOp k l r =>
    match evalNode l with
    | .error e => .error e
    | .ok lv =>
      match evalNode r with
      | .error e => .error e
      | .ok rv =>
        match _ALLOWED_OPERATORS_bin k with
        | some f => f lv rv
        | none => .error .unsupportedOperator
  | .unaryOp k a =>
    match evalNode a with
    | .error e => .error e
    | .ok v =>
      match _ALLOWED_OPERATORS_un k with
      | some f => .ok (f v)
      | none => .error .unsupportedOperator
  | .constant (.intC n) => .ok (.int n)
  | .constant (.floatC q) => .ok (.float q)
  | .constant (.complexC re im) => .ok (.complex re im)
  | .constant (.boolC b) => .ok (.int (if b then 1 else 0))
  | .constant (.strC _) => .error .unsupportedLiteral
  | .constant .noneC => .error .unsupportedLiteral
  | .call _ _ => .error .disallowedConstruct
  | .name _ => .error .disallowedConstruct
  | .attr _ _ => .error .disallowedConstruct
  | .tuple _ => .error .disallowedConstruct

/-- Node kinds outside the whitelisted {Literal, UnaryOp, BinOp} shapes. -/
def Ast.isDisallowed : Ast → Bool
  | .call _ _ => true
  | .name _ => true
  | .attr _ _ => true
  | .tuple _ => true
  | _ => false

/-- The post-processing at src/main.py lines 63-64: an integral float is
converted to an int for display (float.is_integer is den = 1 here). -/
def postProcess : Value → Value
  | .float q => if q.den = 1 then .int q.num else .float q
  | v => v

/-- Character-level body of the caret substitution at src/main.py line 29:
expr.replace, with the single-character pattern, maps each caret to two
stars and every other character to itself. -/
def caretSubst : List Char → List Char
  | [] => []
  | c :: cs => if c = '^' then '*' :: '*' :: caretSubst cs else c :: caretSubst cs

/-- expr.replace at line 29: replace every caret with the power token. -/
def caretToPow (s : String) : String :=
  String.mk (caretSubst s.data)

/-- Lexical tokens of the modelled expression grammar. -/
inductive Tok where
  | numI (n : ℕ)
  | numF (q : ℚ)
  | numJ (q : ℚ)
  | ident (s : String)
  | strTok (s : String)
  | plus
  | minus
  | star
  | slash
  | dstar
  | dslash
  | percent
  | lparen
  | rparen
  | comma
  | dotT

deriving instance DecidableEq for Tok

/-- The single-quote character. -/
def squoteC : Char := Char.ofNat 39

/-- The double-quote character. -/
def dquoteC : Char := Char.ofNat 34

/-- Whitespace characters the tokenizer skips (space, tab, newline, CR). -/
def isWsChar (c : Char) : Bool :=
  c = ' ' || c = Char.ofNat 9 || c = Char.ofNat 10 || c = Char.ofNat 13

/-- The natural number denoted by a string of decimal digits. -/
def digitsToNat (ds : List Char) : ℕ :=
  ds.foldl (fun acc c => 10 * acc + (c.toNat - 48)) 0

/-- The imaginary-literal suffix characters j and J. -/
def isJChar (c : Char) : Bool :=
  c = 'j' || c = 'J'

/-- Tokenizer for the modelled fragment of Python's grammar.  Numbers follow
Python's literal rules: digits with an optional fraction after a dot, a
fraction alone after a dot, a trailing dot allowed (\x22 1. \x22 is the float
one), and a decimal integer literal may not have leading zeros unless it is
all zeros; a trailing j or J makes any of these forms an imaginary literal,
to which the leading-zero restriction does not apply.  Identifiers are
letters, digits and underscores; string literals run to the matching quote
(escape sequences are outside the fragment).  The fuel decreases once per
call and every call consumes at least one character, so length plus one
suffices. -/
def lex : ℕ → List Char → Except EvalError (List Tok)
  | 0, _ => .error .parseRejected
  | _ + 1, [] => .ok []
  | fuel + 1, c :: cs =>
    if isWsChar c then lex fuel cs
    else if c.isDigit then
      let ip := (c :: cs).takeWhile Char.isDigit
      let rest1 := (c :: cs).dropWhile Char.isDigit
      match rest1 with
      | '.' :: rest2 =>
        let fp := rest2.takeWhile Char.isDigit
        let rest3 := rest2.dropWhile Char.isDigit
        let q : ℚ := (digitsToNat ip : ℚ) + (digitsToNat fp : ℚ) / (10 : ℚ) ^ fp.length
        if isJChar (rest3.headD ' ') then
          match lex fuel rest3.tail with
          | .error e => .error e
          | .ok ts => .ok (Tok.numJ q :: ts)
        else
          match lex fuel rest3 with
          | .error e => .error e
          | .ok ts => .ok (Tok.numF q :: ts)
      | _ =>
        if isJChar (rest1.headD ' ') then
          match lex fuel rest1.tail with
          | .error e => .error e
          | .ok ts => .ok (Tok.numJ (digitsToNat ip : ℚ) :: ts)
        else if c = '0' && ip.any (fun d => d != '0') then .error .parseRejected
        else
          match lex fuel rest1 with
          | .error e => .error e
          | .ok ts => .ok (Tok.numI (digitsToNat ip) :: ts)
    else if c = '.' then
      if cs.headD ' ' |>.isDigit then
        let fp := cs.takeWhile Char.isDigit
        let rest2 := cs.dropWhile Char.isDigit
        let q : ℚ := (digitsToNat fp : ℚ) / (10 : ℚ) ^ fp.length
        if isJChar (rest2.headD ' ') then
          match lex fuel rest2.tail with
          | .error e => .error e
          | .ok ts => .ok (Tok.numJ q :: ts)
        else
          match lex fuel rest2 with
          | .error e => .error e
          | .ok ts => .ok (Tok.numF q :: ts)
      else
        match lex fuel cs with
        | .error e => .error e
        | .ok ts => .ok (Tok.dotT :: ts)
    else if c.isAlpha || c = '_' then
      let idc := (c :: cs).takeWhile (fun ch => ch.isAlphanum || ch = '_')
      let rest1 := (c :: cs).dropWhile (fun ch => ch.isAlphanum || ch = '_')
      match lex fuel rest1 with
      | .error e => .error e
      | .ok ts => .ok (Tok.ident (String.mk idc) :: ts)
    else if c = squoteC || c = dquoteC then
      let body := cs.takeWhile (fun ch => ch != c)
      match cs.dropWhile (fun ch => ch != c) with
      | _ :: rest2 =>
        match lex fuel rest2 with
        | .error e => .error e
        | .ok ts => .ok (Tok.strTok (String.mk body) :: ts)
      | [] => .error .parseRejected
    else if c = '*' then
      match cs with
      | '*' :: rest =>
        match lex fuel rest with
        | .error e => .error e
        | .ok ts => .ok (Tok.dstar :: ts)
      | _ =>
        match lex fuel cs with
        | .error e => .error e
        | .ok ts => .ok (Tok.star :: ts)
    else if c = '/' then
      match cs with
      | '/' :: rest =>
        match lex fuel rest with
        | .error e => .error e
        | .ok ts => .ok (Tok.dslash :: ts)
      | _ =>
        match lex fuel cs with
        | .error e => .error e
        | .ok ts => .ok (Tok.slash :: ts)
    else
      let tk : Option Tok :=
        if c = '+' then some .plus
        else if c = '-' then some .minus
        else if c = '%' then some .percent
        else if c = '(' then some .lparen
        else if c = ')' then some .rparen
        else if c = ',' then some .comma
        else none
      match tk with
      | some t =>
        match lex fuel cs with
        | .error e => .error e
        | .ok ts => .ok (t :: ts)
      | none => .error .parseRejected

mutual

/-- mode="eval" body: an expression list, sum (',' sum)*, a comma making a
tuple node. -/
def parseTop : ℕ → List Tok → Except EvalError (Ast × List Tok)
  | 0, _ => .error .parseRejected
  | f + 1, ts =>
    match parseSum f ts with
    | .error e => .error e
    | .ok (a, ts1) =>
      match ts1 with
      | .comma :: ts2 => parseTupleRest f [a] ts2
      | _ => .ok (a, ts1)

/-- Remaining elements of a tuple display, trailing comma allowed. -/
def parseTupleRest : ℕ → List Ast → List Tok → Except EvalError (Ast × List Tok)
  | 0, _, _ => .error .parseRejected
  | f + 1, acc, ts =>
    match ts with
    | [] => .ok (.tuple acc.reverse, [])
    | .rparen :: _ => .ok (.tuple acc.reverse, ts)
    | _ =>
      match parseSum f ts with
      | .error e => .error e
      | .ok (a, ts1) =>
        match ts1 with
        | .comma :: ts2 => parseTupleRest f (a :: acc) ts2
        | _ => .ok (.tuple (a :: acc).reverse, ts1)

/-- sum: term (('+' | '-') term)*, left associative. -/
def parseSum : ℕ → List Tok → Except EvalError (Ast × List Tok)
  | 0, _ => .error .parseRejected
  | f + 1, ts =>
    match parseTerm f ts with
    | .error e => .error e
    | .ok (a, ts1) => parseSumRest f a ts1

def parseSumRest : ℕ → Ast → List Tok → Except EvalError (Ast × List Tok)
  | 0, _, _ => .error .parseRejected
  | f + 1, lhs, ts =>
    match ts with
    | .plus :: ts1 =>
      match parseTerm f ts1 with
      | .error e => .error e
      | .ok (r, ts2) => parseSumRest f (.binOp .add lhs r) ts2
    | .minus :: ts1 =>
      match parseTerm f ts1 with
      | .error e => .error e
      | .ok (r, ts2) => parseSumRest f (.binOp .sub lhs r) ts2
    | _ => .ok (lhs, ts)

/-- term: factor (('*' | '/' | '//' | '%') factor)*, left associative. -/
def parseTerm : ℕ → List Tok → Except EvalError (Ast × List Tok)
  | 0, _ => .error .parseRejected
  | f + 1, ts =>
    match parseFactor f ts with
    | .error e => .error e
    | .ok (a, ts1) => parseTermRest f a ts1

def parseTermRest : ℕ → Ast → List Tok → Except EvalError (Ast × List Tok)
  | 0, _, _ => .error .parseRejected
  | f + 1, lhs, ts =>
    match ts with
    | .star :: ts1 =>
      match parseFactor f ts1 with
      | .error e => .error e
      | .ok (r, ts2) => parseTermRest f (.binOp .mult lhs r) ts2
    | .slash :: ts1 =>
      match parseFactor f ts1 with
      | .error e => .error e
      | .ok (r, ts2) => parseTermRest f (.binOp .div lhs r) ts2
    | .dslash :: ts1 =>
      match parseFactor f ts1 with
      | .error e => .error e
      | .ok (r, ts2) => parseTermRest f (.binOp .floorDiv lhs r) ts2
    | .percent :: ts1 =>
      match parseFactor f ts1 with
      | .error e => .error e
      | .ok (r, ts2) => parseTermRest f (.binOp .mod lhs r) ts2
    | _ => .ok (lhs, ts)

/-- factor: ('+' | '-') factor | power, so unary minus binds looser than
the power operator, as in Python. -/
def parseFactor : ℕ → List Tok → Except EvalError (Ast × List Tok)
  | 0, _ => .error .parseRejected
  | f + 1, ts =>
    match ts with
    | .plus :: ts1 =>
      match parseFactor f ts1 with
      | .error e => .error e
      | .ok (a, ts2) => .ok (.unaryOp .uadd a, ts2)
    | .minus :: ts1 =>
      match parseFactor f ts1 with
      | .error e => .error e
      | .ok (a, ts2) => .ok (.unaryOp .usub a, ts2)
    | _ => parsePower f ts

/-- power: primary ['**' factor], right associative through the factor on
the right-hand side. -/
def parsePower : ℕ → List Tok → Except EvalError (Ast × List Tok)
  | 0, _ => .error .parseRejected
  | f + 1, ts =>
    match parsePrimary f ts with
    | .error e => .error e
    | .ok (a, ts1) =>
      match ts1 with
      | .dstar :: ts2 =>
        match parseFactor f ts2 with
        | .error e => .error e
        | .ok (b, ts3) => .ok (.binOp .pow a b, ts3)
      | _ => .ok (a, ts1)

/-- primary: atom followed by call and attribute-access trailers. -/
def parsePrimary : ℕ → List Tok → Except EvalError (Ast × List Tok)
  | 0, _ => .error .parseRejected
  | f + 1, ts =>
    match parseAtom f ts with
    | .error e => .error e
    | .ok (a, ts1) => parseTrailers f a ts1

def parseTrailers : ℕ → Ast → List Tok → Except EvalError (Ast × List Tok)
  | 0, _, _ => .error .parseRejected
  | f + 1, a, ts =>
    match ts with
    | .lparen :: ts1 =>
      match ts1 with
      | .rparen :: ts2 => parseTrailers f (.call a []) ts2
      | _ =>
        match parseArgs f [] ts1 with
        | .error e => .error e
        | .ok (args, ts2) =>
          match ts2 with
          | .rparen :: ts3 => parseTrailers f (.call a args) ts3
          | _ => .error .parseRejected
    | .dotT :: ts1 =>
      match ts1 with
      | .ident s :: ts2 => parseTrailers f (.attr a s) ts2
      | _ => .error .parseRejected
    | _ => .ok (a, ts)

/-- Call arguments: sum (',' sum)*, trailing comma allowed. -/
def parseArgs : ℕ → List Ast → List Tok → Except EvalError (List Ast × List Tok)
  | 0, _, _ => .error .parseRejected
  | f + 1, acc, ts =>
    match parseSum f ts with
    | .error e => .error e
    | .ok (a, ts1) =>
      match ts1 with
      | .comma :: ts2 =>
        match ts2 with
        | .rparen :: _ => .ok ((a :: acc).reverse, ts2)
        | _ => parseArgs f (a :: acc) ts2
      | _ => .ok ((a :: acc).reverse, ts1)

/-- atom: number, string, name or keyword constant, parenthesized
expression, or the empty tuple. -/
def parseAtom : ℕ → List Tok → Except EvalError (Ast × List Tok)
  | 0, _ => .error .parseRejected
  | f + 1, ts =>
    match ts with
    | .numI n :: ts1 => .ok (.constant (.intC (n : ℤ)), ts1)
    | .numF q :: ts1 => .ok (.constant (.floatC q), ts1)
    | .numJ q :: ts1 => .ok (.constant (.complexC 0 q), ts1)
    | .strTok s :: ts1 => .ok (.constant (.strC s), ts1)
    | .ident s :: ts1 =>
      if s = "True" then .ok (.constant (.boolC true), ts1)
      else if s = "False" then .ok (.constant (.boolC false), ts1)
      else if s = "None" then .ok (.constant .noneC, ts1)
      else .ok (.name s, ts1)
    | .lparen :: ts1 =>
      match ts1 with
      | .rparen :: ts2 => .ok (.tuple [], ts2)
      | _ =>
        match parseTop f ts1 with
        | .error e => .error e
        | .ok (a, ts2) =>
          match ts2 with
          | .rparen :: ts3 => .ok (a, ts3)
          | _ => .error .parseRejected
    | _ => .error .parseRejected

end

/-- ast.parse(expr, mode="eval") on the modelled grammar (src/main.py line
31): tokenize, parse one expression list, and require all input consumed;
any failure is the SyntaxError that safe_eval turns into the syntax
failure at line 33.  The parse fuel is generous: at most seven
fuel units are spent between consecutive token consumptions. -/
def pyParse (s : String) : Except EvalError Ast :=
  match lex (s.data.length + 1) s.data with
  | .error e => .error e
  | .ok ts =>
    match parseTop (20 * ts.length + 20) ts with
    | .ok (a, []) => .ok a
    | .ok (_, _ :: _) => .error .parseRejected
    | .error e => .error e

/-- safe_eval (src/main.py lines 22-65): caret substitution, parse, the
recursive walk _eval, then the integral-float post-processing on a
successful result.  Errors raised at any stage propagate to the caller. -/
def safe_eval (expr : String) : Except EvalError Value :=
  let expr2 := caretToPow expr
  ((pyParse expr2).bind evalNode).map postProcess

deriving instance DecidableEq for Except

/-- The character set of claim C2: digits, the dot, whitespace, and the
operator characters of the calculator keypad. -/
def allowedChar (c : Char) : Bool :=
  c.isDigit || c = '.' || isWsChar c || c = '+' || c = '-' || c = '*' ||
    c = '/' || c = '%' || c = '(' || c = ')' || c = '^'

/-- The injection example of claim C1: the text __import__ followed by the
module name os as a single-quoted string literal in parentheses. -/
def importOsText : String :=
  String.mk ['_', '_', 'i', 'm', 'p', 'o', 'r', 't', '_', '_', '(', squoteC, 'o', 's', squoteC, ')']

/-- Decimal digits of the fractional part of a rational in [0, 1), emitted
most significant first, stopping when the remainder reaches zero or the
fuel runs out. -/
def fracDigits : ℕ → ℚ → List Char
  | 0, _ => []
  | fuel + 1, r =>
    if r = 0 then []
    else
      let r10 := r * 10
      Char.ofNat (48 + (Rat.floor r10).toNat) :: fracDigits fuel (r10 - (Rat.floor r10 : ℚ))

/-- Decimal rendering of a nonnegative rational with a mandatory fractional
part, as Python renders a float (str(5.0) has the trailing .0).  Python
prints the shortest decimal that round-trips through the IEEE float; for
the terminating decimals arising in the claims the two renderings agree,
and no theorem below depends on the rendering of any other value. -/
def floatReprNN (q : ℚ) : String :=
  let ds := fracDigits 1100 (q - (Rat.floor q : ℚ))
  toString (Rat.floor q).toNat ++ "." ++ (if ds.isEmpty then "0" else String.mk ds)

/-- Decimal rendering of a rational, sign first. -/
def floatRepr (q : ℚ) : String :=
  if q < 0 then "-" ++ floatReprNN (-q) else floatReprNN q

/-- A component of a complex value as Python renders it: an integral
component prints without a fractional part. -/
def complexPartRepr (q : ℚ) : String :=
  if q.den = 1 then toString q.num else floatRepr q

/-- Python str() of a result value, as the GUI displays it.  The complex
rendering follows the real form: the bare imaginary part with the j suffix
when the real part is zero, the parenthesized sum otherwise (negative-zero
components, an IEEE artifact, are outside the rational model); no theorem
depends on the rendering of any value outside the claims. -/
def pyStr : Value → String
  | .int n => toString n
  | .float q => floatRepr q
  | .complex re im =>
    if re = 0 then complexPartRepr im ++ "j"
    else
      "(" ++ complexPartRepr re ++
        (if im < 0 then "-" ++ complexPartRepr (-im) else "+" ++ complexPartRepr im) ++ "j)"

/-- The str.strip() call at src/main.py line 159: remove leading and
trailing whitespace.  Implemented on the character list so that concrete
instances evaluate by kernel reduction. -/
def pyStrip (s : String) : String :=
  String.mk (((s.data.dropWhile Char.isWhitespace).reverse.dropWhile Char.isWhitespace).reverse)

namespace Calculator

/-- Calculator.evaluate (src/main.py lines 158-166), the confirm handler:
strip the buffer, return it unchanged when the stripped text is empty,
otherwise call the evaluator on the stripped text and write back str of the
result, or the Error marker when the call raises.  The handler is
parameterized by the evaluator it calls so that the empty case not invoking
the evaluator is expressible; the match on every Except outcome is the
except-Exception catch-all of line 165. -/
def evaluateWith (ev : String → Except EvalError Value) (buffer : String) : String :=
  let expr := pyStrip buffer
  if expr = "" then buffer
  else
    match ev expr with
    | .ok res => pyStr res
    | .error _ => "Error"

/-- The confirm handler applied to safe_eval, the evaluator the source
calls. -/
def evaluate : String → String := evaluateWith safe_eval

end Calculator

theorem caretSubst_idem (l : List Char) : caretSubst (caretSubst l) = caretSubst l := by
  have hs : ('*' : Char) ≠ '^' := by with_unfolding_all decide
  induction l with
  | nil => rfl
  | cons c cs ih =>
    by_cases h : c = '^'
    · simp [caretSubst, h, ih, hs]
    · simp [caretSubst, h, ih]

theorem caretToPow_idem (s : String) : caretToPow (caretToPow s) = caretToPow s := by
  show String.mk (caretSubst (caretSubst s.data)) = String.mk (caretSubst s.data)
  rw [caretSubst_idem]

/-- C1: every parsed node whose kind is outside the whitelisted set of
Literal, UnaryOp and BinOp — a call, a name reference, an attribute access,
or a tuple — evaluates to the DisallowedConstruct failure without the
embedded construct being executed (the result does not depend on the
children), and in particular evaluate on the text importing the os module
fails with DisallowedConstruct. -/
theorem c1_disallowed_construct (a : Ast) (h : a.isDisallowed = true) :
    evalNode a = .error .disallowedConstruct ∧
      safe_eval importOsText = .error .disallowedConstruct := by
  refine ⟨?_, by with_unfolding_all decide⟩
  cases a <;> first
    | rfl
    | exact absurd h (by simp [Ast.isDisallowed])

theorem c1_witness :
    evalNode (Ast.name "os") = .error .disallowedConstruct ∧
      safe_eval importOsText = .error .disallowedConstruct :=
  c1_disallowed_construct (Ast.name "os") rfl

/-- C2: for every input over the calculator character set (digits, the dot,
whitespace and the operator characters) evaluation has a typed outcome:
either a numeric value or one of the five typed failures.  safe_eval is a
pure Lean function of the input string, so no external state is read or
mutated. -/
theorem c2_typed_totality (s : String) (h : s.data.all allowedChar = true) :
    (∃ v, safe_eval s = .ok v) ∨
      safe_eval s = .error .parseRejected ∨
      safe_eval s = .error .unsupportedLiteral ∨
      safe_eval s = .error .unsupportedOperator ∨
      safe_eval s = .error .disallowedConstruct ∨
      safe_eval s = .error .arithmeticFailure := by
  cases hv : safe_eval s with
  | ok v => exact Or.inl ⟨v, rfl⟩
  | error e => cases e <;> simp [hv]

theorem c2_witness :
    (∃ v, safe_eval "2+2" = .ok v) ∨
      safe_eval "2+2" = .error .parseRejected ∨
      safe_eval "2+2" = .error .unsupportedLiteral ∨
      safe_eval "2+2" = .error .unsupportedOperator ∨
      safe_eval "2+2" = .error .disallowedConstruct ∨
      safe_eval "2+2" = .error .arithmeticFailure :=
  c2_typed_totality "2+2" (by with_unfolding_all decide)

/-- C3: a division or modulo node whose operands evaluate successfully and
whose right operand is numerically zero fails with ArithmeticFailure (the
operator function raises after the children are evaluated, and the failure
propagates outward through the Except bind), and in particular evaluate on
5/0 fails with ArithmeticFailure. -/
theorem c3_zero_division (k : BinK) (hk : k = BinK.div ∨ k = BinK.mod)
    (l r : Ast) (vl vr : Value)
    (hl : evalNode l = .ok vl) (hr : evalNode r = .ok vr) (hz : vr.toQ = 0) :
    evalNode (.binOp k l r) = .error .arithmeticFailure ∧
      safe_eval "5/0" = .error .arithmeticFailure := by
  refine ⟨?_, by with_unfolding_all decide⟩
  rcases hk with rfl | rfl <;>
    simp [evalNode, hl, hr, _ALLOWED_OPERATORS_bin, divV, modV, hz]

theorem c3_witness :
    evalNode (Ast.binOp BinK.div (Ast.constant (Const.intC 5)) (Ast.constant (Const.intC 0))) =
        .error .arithmeticFailure ∧
      safe_eval "5/0" = .error .arithmeticFailure :=
  c3_zero_division BinK.div (Or.inl rfl) (Ast.constant (Const.intC 5))
    (Ast.constant (Const.intC 0)) (Value.int 5) (Value.int 0) (by with_unfolding_all decide) (by with_unfolding_all decide) (by with_unfolding_all decide)

/-- C4: binary operators follow standard arithmetic precedence and
parentheses group subexpressions: 2+3*4 evaluates to 14 and (1+2)*3
evaluates to 9. -/
theorem c4_precedence :
    safe_eval "2+3*4" = .ok (.int 14) ∧ safe_eval "(1+2)*3" = .ok (.int 9) :=
  ⟨by with_unfolding_all decide, by with_unfolding_all decide⟩

/-- C5: evaluation is invariant under replacing every caret with the power
token, because safe_eval performs exactly that substitution first and the
substitution is idempotent (its output contains no caret); in particular
2^3 evaluates to 8. -/
theorem c5_caret_preprocessing (s : String) :
    safe_eval s = safe_eval (caretToPow s) ∧ safe_eval "2^3" = .ok (.int 8) := by
  refine ⟨?_, by with_unfolding_all decide⟩
  show ((pyParse (caretToPow s)).bind evalNode).map postProcess =
    ((pyParse (caretToPow (caretToPow s))).bind evalNode).map postProcess
  rw [caretToPow_idem]

/-- C6: every successful evaluation passes through the integral-float
normalization: postProcess converts a float with no fractional part to the
int of the same value and leaves every other value unchanged, safe_eval is
exactly parse-then-walk mapped through postProcess, and in particular 10/2
evaluates to the int 5 while 10/4 evaluates to the float five halves. -/
theorem c6_integral_float_normalization :
    (∀ q : ℚ, postProcess (.float q) = if q.den = 1 then .int q.num else .float q) ∧
    (∀ n : ℤ, postProcess (.int n) = .int n) ∧
    (∀ s, safe_eval s = ((pyParse (caretToPow s)).bind evalNode).map postProcess) ∧
    safe_eval "10/2" = .ok (.int 5) ∧ safe_eval "10/4" = .ok (.float (5 / 2)) :=
  ⟨fun _ => rfl, fun _ => rfl, fun _ => rfl, by with_unfolding_all decide, by with_unfolding_all decide⟩

/-- C8 counterexample: the imaginary literal 1j parses to a Constant node
whose payload is the complex number complex(0, 1) — a literal that is
neither an integer nor a floating-point constant — yet evaluation returns
the complex value instead of failing with UnsupportedLiteral: the ast.Num
test at src/main.py line 51 matches a complex Constant payload and line 52
returns node.n, which aliases the payload, before the isinstance check at
line 54 is ever reached. -/
theorem c8_counterexample :
    evalNode (Ast.constant (Const.complexC 0 1)) = .ok (Value.complex 0 1) ∧
      safe_eval "1j" = .ok (Value.complex 0 1) ∧
      evalNode (Ast.constant (Const.complexC 0 1)) ≠ .error .unsupportedLiteral :=
  ⟨by with_unfolding_all decide, by with_unfolding_all decide, by with_unfolding_all decide⟩

/-- C8 (amended): a Literal (Constant) node evaluates to its numeric value
for every numeric payload — int, float and complex payloads through the
legacy ast.Num branch at lines 51-52, whose deprecated-alias instance check
accepts exactly those three kinds, and bool payloads through the line-54
isinstance check, where bool subclasses int — and fails with
UnsupportedLiteral only for literals of non-numeric kinds (strings,
None). -/
theorem c8_literal_kinds :
    (∀ n : ℤ, evalNode (.constant (.intC n)) = .ok (.int n)) ∧
    (∀ q : ℚ, evalNode (.constant (.floatC q)) = .ok (.float q)) ∧
    (∀ re im : ℚ, evalNode (.constant (.complexC re im)) = .ok (.complex re im)) ∧
    (∀ b : Bool, evalNode (.constant (.boolC b)) = .ok (.int (if b then 1 else 0))) ∧
    (∀ s : String, evalNode (.constant (.strC s)) = .error .unsupportedLiteral) ∧
    evalNode (.constant .noneC) = .error .unsupportedLiteral :=
  ⟨fun _ => rfl, fun _ => rfl, fun _ _ => rfl, fun _ => rfl, fun _ => rfl, rfl⟩

/-- C9 counterexample: a buffer holding one space strips to empty, so the
confirm handler returns with the buffer still one space — it is replaced
neither by a stringified numeric result nor by the Error marker, although
the evaluator fails on that buffer text, for which the claimed contract
would write the Error marker. -/
theorem c9_counterexample :
    Calculator.evaluate " " = " " ∧
      safe_eval " " = .error .parseRejected ∧ (" " : String) ≠ "Error" :=
  ⟨by with_unfolding_all decide, by with_unfolding_all decide, by with_unfolding_all decide⟩

/-- C9 (amended): for every buffer that is nonempty after stripping
whitespace, the confirm action calls the evaluator on the stripped buffer
contents and replaces the buffer with the stringified numeric result on
success and with the Error marker on any failure; a buffer that strips to
empty is left unchanged. -/
theorem c9_confirm_replaces (buffer : String) (h : pyStrip buffer ≠ "") :
    (∃ v, safe_eval (pyStrip buffer) = .ok v ∧ Calculator.evaluate buffer = pyStr v) ∨
      (∃ e, safe_eval (pyStrip buffer) = .error e ∧ Calculator.evaluate buffer = "Error") := by
  cases hv : safe_eval (pyStrip buffer) with
  | ok v =>
    refine Or.inl ⟨v, rfl, ?_⟩
    simp only [Calculator.evaluate, Calculator.evaluateWith]
    rw [if_neg h, hv]
  | error e =>
    refine Or.inr ⟨e, rfl, ?_⟩
    simp only [Calculator.evaluate, Calculator.evaluateWith]
    rw [if_neg h, hv]

theorem c9_witness :
    (∃ v, safe_eval (pyStrip "1+1") = .ok v ∧ Calculator.evaluate "1+1" = pyStr v) ∨
      (∃ e, safe_eval (pyStrip "1+1") = .error e ∧ Calculator.evaluate "1+1" = "Error") :=
  c9_confirm_replaces "1+1" (by with_unfolding_all decide)

/-- C10: the confirm handler never propagates an exception: a buffer that
strips to empty is returned unchanged without invoking the evaluator (the
result is the buffer for every evaluator argument), every failure raised by
safe_eval is caught and collapses the buffer to the Error marker, and in
all cases the handler returns one of: the old buffer, the Error marker, or
the stringified numeric result. -/
theorem c10_no_exception_propagation (buffer : String) :
    (pyStrip buffer = "" → ∀ ev, Calculator.evaluateWith ev buffer = buffer) ∧
    (pyStrip buffer ≠ "" → ∀ e, safe_eval (pyStrip buffer) = .error e →
      Calculator.evaluate buffer = "Error") ∧
    (Calculator.evaluate buffer = buffer ∨ Calculator.evaluate buffer = "Error" ∨
      ∃ v, safe_eval (pyStrip buffer) = .ok v ∧ Calculator.evaluate buffer = pyStr v) := by
  refine ⟨fun h ev => ?_, fun h e he => ?_, ?_⟩
  · simp only [Calculator.evaluateWith]
    rw [if_pos h]
  · simp only [Calculator.evaluate, Calculator.evaluateWith]
    rw [if_neg h, he]
  · by_cases h : pyStrip buffer = ""
    · left
      simp only [Calculator.evaluate, Calculator.evaluateWith]
      rw [if_pos h]
    · cases hv : safe_eval (pyStrip buffer) with
      | ok v =>
        refine Or.inr (Or.inr ⟨v, rfl, ?_⟩)
        simp only [Calculator.evaluate, Calculator.evaluateWith]
        rw [if_neg h, hv]
      | error e =>
        refine Or.inr (Or.inl ?_)
        simp only [Calculator.evaluate, Calculator.evaluateWith]
        rw [if_neg h, hv]

theorem c10_witness :
    Calculator.evaluateWith safe_eval "" = "" ∧ Calculator.evaluate "5/0" = "Error" :=
  ⟨(c10_no_exception_propagation "").1 (by with_unfolding_all decide) safe_eval,
   (c10_no_exception_propagation "5/0").2.1 (by with_unfolding_all decide) EvalError.arithmeticFailure (by with_unfolding_all decide)⟩
